import Mathlib

/-
Verification of the pyATS network-validation test suites.

The Python sources are shallowly embedded: interface names, device names and
raw command output are `List Char` (Python `str`), parsed payloads are
structures of `Option`-valued fields (Python `dict.get`), a fallible
`device.parse`/`device.execute` call is an environment function returning
`Except Unit _`, and numeric readings are `Rat` (Python floats here are
exact decimals).  Each checker method of the source is translated into an
executable Lean function over these types.
-/

namespace Pyats

/-! ## Python string primitives -/

/-- Python `str.lower` (ASCII data in this code base). -/
def lowerStr (s : List Char) : List Char := s.map Char.toLower

/-- Python `str.upper`. -/
def upperStr (s : List Char) : List Char := s.map Char.toUpper

/-- Coerce a Lean string literal to the embedded string type. -/
def strOf (s : String) : List Char := s.data

/-- Worker for `replaceAll`, structurally recursive on a fuel argument so the
kernel can evaluate it.  One unit of fuel is spent per scanning step and each
step consumes at least one character, so `s.length` fuel always suffices. -/
def replaceAllGo (pat rep : List Char) : Nat → List Char → List Char
  | _, [] => []
  | 0, s => s
  | fuel + 1, c :: rest =>
    if pat ≠ [] ∧ pat.isPrefixOf (c :: rest) then
      rep ++ replaceAllGo pat rep fuel ((c :: rest).drop pat.length)
    else
      c :: replaceAllGo pat rep fuel rest

/-- Python `str.replace pat rep`: replace every non-overlapping occurrence of
`pat`, scanning left to right.  All patterns used by the sources are
non-empty. -/
def replaceAll (pat rep s : List Char) : List Char :=
  replaceAllGo pat rep s.length s

/-- Python substring containment, `needle in hay`. -/
def containsSub (needle : List Char) : List Char → Bool
  | [] => needle.isEmpty
  | c :: t => needle.isPrefixOf (c :: t) || containsSub needle t

/-! ## C1 — interface-name normalization

`OspfInterfaceHealth._normalize_interface_name` (tests/layer3/test_ospf_health.py)
lowercases the name and then applies the replacement table below in insertion
order with `str.replace`. -/

/-- Replacement table of `_normalize_interface_name`, in Python dict
insertion order. -/
def ospfReplacements : List (List Char × List Char) :=
  [ (strOf "gigabitethernet", strOf "gi"),
    (strOf "fastethernet", strOf "fa"),
    (strOf "ethernet", strOf "eth"),
    (strOf "tengigabitethernet", strOf "te"),
    (strOf "twentyfivegige", strOf "twe"),
    (strOf "fortygigabitethernet", strOf "fo"),
    (strOf "hundredgige", strOf "hu"),
    (strOf "loopback", strOf "lo"),
    (strOf "vlan", strOf "vlan"),
    (strOf "port-channel", strOf "po") ]

/-- `OspfInterfaceHealth._normalize_interface_name`. -/
def normalizeInterfaceName (name : List Char) : List Char :=
  ospfReplacements.foldl (fun n p => replaceAll p.1 p.2 n) (lowerStr name)

/-- `normalize_interface` as defined inside the REP suite
(tests/layer2/test_rep.py): lowercase, then three successive `str.replace`
calls. -/
def repNormalizeInterface (intf : List Char) : List Char :=
  replaceAll (strOf "port-channel") (strOf "po")
    (replaceAll (strOf "tengigabitethernet") (strOf "te")
      (replaceAll (strOf "gigabitethernet") (strOf "gi") (lowerStr intf)))

/-! ## Verdicts

An aetest testcase ends `Passed` (explicitly via `self.passed` or implicitly
when the test method returns without failing), `Failed` (via `self.failed`),
or `Skipped` (via `self.skipped` during setup). -/

inductive Verdict where
  | Passed
  | Failed
  | Skipped
deriving DecidableEq

/-! ## VLAN existence checker (tests/layer2/test_layer2.py, `VLANValidation`)

`setup` filters the layer-2 device list to the devices whose custom
attributes declare a non-empty `expected_vlans` list and skips the testcase
when none remain.  `verify_vlan_existence` parses `show vlan` per device
(converting a parse exception into a per-device error entry and continuing),
takes the keys of `parsed.get('vlans', {})`, and records one entry for each
expected VLAN id whose string form is not among those keys. -/

/-- A device as seen by the VLAN checker: its name and the `expected_vlans`
custom attribute (a list of VLAN ids; an absent attribute is the empty
list). -/
structure VlanDevice where
  name : List Char
  expected_vlans : List Nat
deriving DecidableEq

/-- One entry of the `failed` list of `verify_vlan_existence`. -/
inductive VlanFinding where
  | parseError (device : List Char)
  | missingVlan (device : List Char) (vlan : Nat)
deriving DecidableEq

/-- Python `str(vlan_id)`. -/
def natChars (n : Nat) : List Char := (Nat.repr n).data

/-- The membership test of the `for vlan_id in expected_vlans` loop of
`verify_vlan_existence`: an entry for `vlan_id` iff `str(vlan_id)` is not
among the keys of `parsed.get('vlans', {})`. -/
def vlanMissTest (device : List Char) (keys : List (List Char)) (v : Nat) :
    Option VlanFinding :=
  if natChars v ∈ keys then none else some (.missingVlan device v)

/-- The entries `verify_vlan_existence` appends for one device.  The
environment `parse` models `device.parse('show vlan')` followed by
`parsed.get('vlans', {}).keys()`; `Except.error` models the parse raising. -/
def vlanDeviceFindings (parse : List Char → Except Unit (List (List Char)))
    (d : VlanDevice) : List VlanFinding :=
  match parse d.name with
  | .error _ => [.parseError d.name]
  | .ok keys => d.expected_vlans.filterMap (vlanMissTest d.name keys)

/-- The full `failed` list of `verify_vlan_existence` over a device list. -/
def verifyVlanExistence (parse : List Char → Except Unit (List (List Char)))
    (devs : List VlanDevice) : List VlanFinding :=
  (devs.map (vlanDeviceFindings parse)).flatten

/-- The device filter applied by `VLANValidation.setup`. -/
def vlanDevicesOf (l2 : List VlanDevice) : List VlanDevice :=
  l2.filter (fun d => !d.expected_vlans.isEmpty)

/-- The verdict of the `VLANValidation.verify_vlan_existence` testcase:
`setup` skips when no device declares VLAN expectations, otherwise the test
fails iff the `failed` list is non-empty. -/
def vlanExistenceVerdict (parse : List Char → Except Unit (List (List Char)))
    (l2 : List VlanDevice) : Verdict :=
  let vlanDevices := vlanDevicesOf l2
  if vlanDevices.isEmpty then .Skipped
  else if (verifyVlanExistence parse vlanDevices).isEmpty then .Passed
  else .Failed

/-- The device a VLAN finding reports on. -/
def vlanFindingDevice : VlanFinding → List Char
  | .parseError d => d
  | .missingVlan d _ => d

/-! ## Layer-1 link status checker (layer1_tests.py, `LinkHealth.check_link_status`)

`_get_interface_data` calls `device.parse(f'show interfaces {intf_name}')`
with no exception handling; `check_link_status` walks every interface of
every link, lowercases `oper_status`/`line_protocol` and collects a detail
for every end that is not up/up; it fails iff any link collected details.
A parse exception propagates out of the test method. -/

/-- An endpoint of a testbed link: owning device name and interface name. -/
structure LinkIntf where
  device : List Char
  name : List Char
deriving DecidableEq

/-- A testbed link. -/
structure TbLink where
  name : List Char
  interfaces : List LinkIntf
deriving DecidableEq

/-- The fields `check_link_status` reads from
`device.parse('show interfaces X').get(X, {})`; `none` models an absent
key (Python `.get(key, '')`). -/
structure IntfParsed where
  oper_status : Option (List Char)
  line_protocol : Option (List Char)
deriving DecidableEq

/-- One entry of `link_details` in `check_link_status`. -/
inductive LinkDetail where
  | statusBad (device intfName oper proto : List Char)
deriving DecidableEq

/-- The `for intf in link.interfaces` loop of `check_link_status`.  The
unprotected `device.parse` call is the monadic bind: its failure aborts the
whole computation. -/
def linkStatusIntfDetails (parse : List Char → List Char → Except Unit IntfParsed) :
    List LinkIntf → Except Unit (List LinkDetail)
  | [] => .ok []
  | i :: rest => do
      let data ← parse i.device i.name
      let oper := lowerStr (data.oper_status.getD [])
      let proto := lowerStr (data.line_protocol.getD [])
      let tail ← linkStatusIntfDetails parse rest
      if oper ≠ strOf "up" ∨ proto ≠ strOf "up" then
        pure (.statusBad i.device i.name oper proto :: tail)
      else
        pure tail

/-- The `failed_links` list of `check_link_status`. -/
def checkLinkStatus (parse : List Char → List Char → Except Unit IntfParsed) :
    List TbLink → Except Unit (List (List Char × List LinkDetail))
  | [] => .ok []
  | l :: rest => do
      let details ← linkStatusIntfDetails parse l.interfaces
      let tail ← checkLinkStatus parse rest
      if details ≠ [] then pure ((l.name, details) :: tail) else pure tail

/-- The outcome of the `check_link_status` test method: `Failed` iff some
link collected details, and an uncaught parse exception (`Except.error`)
aborts the checker without producing any verdict. -/
def checkLinkStatusVerdict (parse : List Char → List Char → Except Unit IntfParsed)
    (links : List TbLink) : Except Unit Verdict := do
  let failedLinks ← checkLinkStatus parse links
  if failedLinks ≠ [] then pure .Failed else pure .Passed

/-! ## REP blocked-port checker (tests/layer2/test_rep.py, `RepBlockedPortHealth`)

`verify_blocked_ports` runs `show rep topology` per device (an exception
becomes an error entry), extracts blocked ports with the case-insensitive
regular expression
`((?:Gi|GigabitEthernet|Te|TenGigabitEthernet|Po|Port-channel)[\d/]+)\s+(?:BLK|BLOCKED)`,
normalizes names, and records an issue for every expected blocked port not
observed blocked (or, with no expectation, for an edge-role device with no
blocked port).  The method ends with only a `logger.warning` on a non-empty
issue list — it never calls `self.failed`, so the testcase always completes
in the passed state. -/

/-- Python `[\d/]`. -/
def isDigitSlash (c : Char) : Bool := c.isDigit || c = '/'

/-- Python `\s`. -/
def isPySpace (c : Char) : Bool :=
  c = ' ' || c = '\t' || c = '\n' || c = '\r' || c = '\x0b' || c = '\x0c'

/-- Case-insensitive literal prefix match (the regex is compiled with
`re.IGNORECASE`). -/
def ciPrefixMatch (pat s : List Char) : Bool :=
  (lowerStr pat).isPrefixOf (lowerStr s)

/-- The alternatives of the interface-prefix group, in regex order. -/
def blkAlternatives : List (List Char) :=
  [strOf "Gi", strOf "GigabitEthernet", strOf "Te", strOf "TenGigabitEthernet",
   strOf "Po", strOf "Port-channel"]

/-- Match `\s+(?:BLK|BLOCKED)` at the front of `s`, returning the remainder
after the match.  `BLK`/`BLOCKED` start with a non-space character, so the
greedy space run followed by the literal alternatives is exact. -/
def matchBlkTail (s : List Char) : Option (List Char) :=
  let sp := s.takeWhile isPySpace
  if sp.isEmpty then none
  else
    let s1 := s.drop sp.length
    if ciPrefixMatch (strOf "BLK") s1 then some (s1.drop 3)
    else if ciPrefixMatch (strOf "BLOCKED") s1 then some (s1.drop 7)
    else none

/-- Match the whole blocked-port pattern at the front of `s`; on success
return the text captured by group 1 (prefix alternative plus the `[\d/]+`
run, in original case) and the remainder of `s` after the full match.
Alternatives are tried in regex order; a `[\d/]+` run is never shortened by
backtracking because `\s` and digit/slash characters are disjoint. -/
def matchBlkAt (s : List Char) : Option (List Char × List Char) :=
  blkAlternatives.findSome? (fun alt =>
    if ciPrefixMatch alt s then
      let s1 := s.drop alt.length
      let digits := s1.takeWhile isDigitSlash
      if digits.isEmpty then none
      else
        match matchBlkTail (s1.drop digits.length) with
        | some remainder => some (s.take alt.length ++ digits, remainder)
        | none => none
    else none)

/-- Worker for `findBlkMatches` (`re.findall` semantics: leftmost,
non-overlapping), fuel-recursive; every step consumes at least one
character. -/
def findBlkGo : Nat → List Char → List (List Char)
  | 0, _ => []
  | _, [] => []
  | fuel + 1, c :: rest =>
    match matchBlkAt (c :: rest) with
    | some (g, remainder) => g :: findBlkGo fuel remainder
    | none => findBlkGo fuel rest

/-- `re.findall(blk_pattern, output, re.IGNORECASE)` of
`verify_blocked_ports`. -/
def findBlkMatches (s : List Char) : List (List Char) :=
  findBlkGo s.length s

/-- A device as seen by the REP blocked-port checker: `rep_blocked_ports`
and `rep_role` custom attributes (absent attributes are the empty
list/string). -/
structure RepDevice where
  name : List Char
  rep_blocked_ports : List (List Char)
  rep_role : List Char
deriving DecidableEq

/-- One entry of the `issues` list of `verify_blocked_ports`. -/
inductive RepIssue where
  | notBlocked (device port : List Char)
  | noBlockedOnEdge (device : List Char)
  | execFailed (device : List Char)
deriving DecidableEq

/-- The issue entries `verify_blocked_ports` appends for one device.  The
environment `execEnv` models `device.execute('show rep topology')`. -/
def repDeviceIssues (execEnv : List Char → Except Unit (List Char))
    (d : RepDevice) : List RepIssue :=
  match execEnv d.name with
  | .error _ => [.execFailed d.name]
  | .ok output =>
      let blockedPorts := findBlkMatches output
      let normalizedBlocked := blockedPorts.map repNormalizeInterface
      if !d.rep_blocked_ports.isEmpty then
        d.rep_blocked_ports.filterMap (fun expected =>
          if repNormalizeInterface expected ∈ normalizedBlocked then none
          else some (.notBlocked d.name expected))
      else
        if blockedPorts.isEmpty &&
            containsSub (strOf "edge") (lowerStr d.rep_role) then
          [.noBlockedOnEdge d.name]
        else []

/-- The result of the `verify_blocked_ports` test method: the accumulated
issue list, and the testcase verdict.  The source ends the method with
`if issues: logger.warning(...)` and never calls `self.failed` (every
per-device exception is caught), so the verdict is `Passed`
unconditionally. -/
def verifyBlockedPorts (execEnv : List Char → Except Unit (List Char))
    (devs : List RepDevice) : List RepIssue × Verdict :=
  ((devs.map (repDeviceIssues execEnv)).flatten, .Passed)

/-! ## Optical-level checker (layer1_tests.py, `LinkHealth.check_link_optical_levels`)

Per interface: skip when no `sfp_type` attribute, no threshold entry, a
`show controllers optics` parse exception, or an absent rx value; otherwise
coerce the rx value with `float(...)` — uncaught when the value is a
non-numeric string — and record a detail unless
`rx_min <= rx_power <= rx_max`. -/

/-- A value found in a parsed payload: a number or a string
(`float()` accepts the former unchanged and parses the latter). -/
inductive PyVal where
  | num (q : Rat)
  | str (s : List Char)
deriving DecidableEq

/-- Decimal digits to a natural number. -/
def digitsToNat (ds : List Char) : Nat :=
  ds.foldl (fun acc c => acc * 10 + (c.toNat - 48)) 0

/-- Python `float(s)` on a string, for the plain decimal forms occurring in
telemetry: optional sign, integer digits, optional fractional digits.  Any
other shape (for example `"N/A"`) fails. -/
def parseFloatChars (s : List Char) : Option Rat :=
  let signAndRest : Bool × List Char :=
    match s with
    | '-' :: t => (true, t)
    | '+' :: t => (false, t)
    | t => (false, t)
  let s1 := signAndRest.2
  let intPart := s1.takeWhile Char.isDigit
  let s2 := s1.drop intPart.length
  let fracAndRest : List Char × List Char :=
    match s2 with
    | '.' :: t => (t.takeWhile Char.isDigit, t.drop (t.takeWhile Char.isDigit).length)
    | t => ([], t)
  let fracPart := fracAndRest.1
  if !fracAndRest.2.isEmpty then none
  else if intPart.isEmpty ∧ fracPart.isEmpty then none
  else
    let mag : Rat :=
      mkRat (digitsToNat intPart * 10 ^ fracPart.length + digitsToNat fracPart)
        (10 ^ fracPart.length)
    some (if signAndRest.1 then -mag else mag)

/-- `float(rx_power)`: identity on a number, parse-or-raise on a string. -/
def pyFloat : PyVal → Except Unit Rat
  | .num q => .ok q
  | .str s =>
      match parseFloatChars s with
      | some q => .ok q
      | none => .error ()

/-- The `SFP_THRESHOLDS` table of layer1_tests.py (dBm; the decimal float
literals of the source are the exact rationals written here, e.g.
`-9.5 = -19/2`). -/
def SFP_THRESHOLDS : List (List Char × Rat × Rat) :=
  [ (strOf "SFP-10G-SR", (mkRat (-19) 2, (2 : Rat))),
    (strOf "SFP-10G-LR", (mkRat (-72) 5, mkRat 1 2)),
    (strOf "SFP-10G-ER", (mkRat (-79) 5, (-1 : Rat))),
    (strOf "SFP-1G-SX", ((-17 : Rat), (0 : Rat))),
    (strOf "SFP-1G-LX", ((-19 : Rat), (-3 : Rat))) ]

/-- `SFP_THRESHOLDS.get(sfp_type)`. -/
def sfpLookup (t : List Char) : Option (Rat × Rat) :=
  (SFP_THRESHOLDS.find? (fun p => p.1 == t)).map (fun p => p.2)

/-- An endpoint as seen by the optical checker: device, interface name and
the interface object's `sfp_type` attribute (`none` when the interface
object or the attribute is missing). -/
structure OpticIntf where
  device : List Char
  name : List Char
  sfp_type : Option (List Char)
deriving DecidableEq

/-- One entry of `link_details` in `check_link_optical_levels`. -/
inductive OpticDetail where
  | rxOutOfRange (device intfName : List Char) (rx mn mx : Rat)
deriving DecidableEq

/-- The interface loop of `check_link_optical_levels`.  The environment
models `device.parse('show controllers optics X')` followed by
`parsed.get(X, {}).get('optics', {}).get('rx_power', optics.get('receive_power'))`:
`Except.error` is a parse exception (caught, `continue`), `ok none` an
absent rx value (`continue`), `ok (some v)` the value handed to `float`,
whose failure is NOT caught and aborts the checker. -/
def opticIntfDetails (parseOptics : List Char → List Char → Except Unit (Option PyVal)) :
    List OpticIntf → Except Unit (List OpticDetail)
  | [] => .ok []
  | i :: rest =>
      match i.sfp_type with
      | none => opticIntfDetails parseOptics rest
      | some t =>
          match sfpLookup t with
          | none => opticIntfDetails parseOptics rest
          | some (mn, mx) =>
              match parseOptics i.device i.name with
              | .error _ => opticIntfDetails parseOptics rest
              | .ok none => opticIntfDetails parseOptics rest
              | .ok (some v) => do
                  let rx ← pyFloat v
                  let tail ← opticIntfDetails parseOptics rest
                  if ¬ (mn ≤ rx ∧ rx ≤ mx) then
                    pure (.rxOutOfRange i.device i.name rx mn mx :: tail)
                  else
                    pure tail

/-- The `failed_links` list of `check_link_optical_levels`. -/
def checkLinkOpticalLevels (parseOptics : List Char → List Char → Except Unit (Option PyVal)) :
    List (List Char × List OpticIntf) → Except Unit (List (List Char × List OpticDetail))
  | [] => .ok []
  | (lname, intfs) :: rest => do
      let details ← opticIntfDetails parseOptics intfs
      let tail ← checkLinkOpticalLevels parseOptics rest
      if details ≠ [] then pure ((lname, details) :: tail) else pure tail

/-- The outcome of the `check_link_optical_levels` test method. -/
def checkLinkOpticalVerdict (parseOptics : List Char → List Char → Except Unit (Option PyVal))
    (links : List (List Char × List OpticIntf)) : Except Unit Verdict := do
  let failedLinks ← checkLinkOpticalLevels parseOptics links
  if failedLinks ≠ [] then pure .Failed else pure .Passed

/-! ## CDP reconciliation (layer1_tests.py, `LinkHealth.check_link_cdp`)

For each two-endpoint link the method evaluates both directions
`[(intf_a, intf_b), (intf_b, intf_a)]`: parse `show cdp neighbors detail` on
the local device (an exception becomes a parse-failed detail), find the
first CDP index entry whose `local_interface` contains the local name
(case-insensitive), strip the domain from `device_id`, and record a detail
when the expected neighbor name is not a substring of it, or (elif) when the
expected port is not a substring of `port_id`; if no entry matches, record a
no-neighbor detail. -/

/-- One entry of `parsed['index']`. -/
structure CdpEntry where
  local_interface : List Char
  device_id : List Char
  port_id : List Char
deriving DecidableEq

/-- One entry of `link_details` in `check_link_cdp`. -/
inductive CdpDetail where
  | parseFailed (device : List Char)
  | neighborMismatch (device localName cdpNeighbor expectedNeighbor : List Char)
  | portMismatch (device localName cdpPort expectedPort : List Char)
  | noNeighborFound (device localName : List Char)
deriving DecidableEq

/-- Python `s.split('.')[0]`. -/
def stripDomain (s : List Char) : List Char := s.takeWhile (fun c => c ≠ '.')

/-- The `for idx, neighbor in parsed.get('index', {}).items()` loop: first
matching entry decides (then `break`), a completed loop without a match
yields the no-neighbor detail. -/
def cdpEntryFindings (device localName expectedNeighbor expectedPort : List Char) :
    List CdpEntry → List CdpDetail
  | [] => [.noNeighborFound device localName]
  | e :: rest =>
      if containsSub (lowerStr localName) (lowerStr e.local_interface) then
        let cdpNeighbor := stripDomain e.device_id
        let cdpPort := e.port_id
        if ¬ containsSub (lowerStr expectedNeighbor) (lowerStr cdpNeighbor) then
          [.neighborMismatch device localName cdpNeighbor expectedNeighbor]
        else if ¬ containsSub (lowerStr expectedPort) (lowerStr cdpPort) then
          [.portMismatch device localName cdpPort expectedPort]
        else []
      else cdpEntryFindings device localName expectedNeighbor expectedPort rest

/-- One direction of the CDP check: `local_intf`'s device view of
`remote_intf`. -/
def cdpDirectionFindings (parseCdp : List Char → Except Unit (List CdpEntry))
    (localI remoteI : LinkIntf) : List CdpDetail :=
  match parseCdp localI.device with
  | .error _ => [.parseFailed localI.device]
  | .ok entries =>
      cdpEntryFindings localI.device localI.name remoteI.device remoteI.name entries

/-- The `failed_links` list of `check_link_cdp`; links without exactly two
endpoints are skipped. -/
def checkLinkCdp (parseCdp : List Char → Except Unit (List CdpEntry)) :
    List TbLink → List (List Char × List CdpDetail)
  | [] => []
  | l :: rest =>
      match l.interfaces with
      | [a, b] =>
          let details := cdpDirectionFindings parseCdp a b ++ cdpDirectionFindings parseCdp b a
          if details ≠ [] then (l.name, details) :: checkLinkCdp parseCdp rest
          else checkLinkCdp parseCdp rest
      | _ => checkLinkCdp parseCdp rest

/-- The outcome of the `check_link_cdp` test method. -/
def checkLinkCdpVerdict (parseCdp : List Char → Except Unit (List CdpEntry))
    (links : List TbLink) : Verdict :=
  if checkLinkCdp parseCdp links ≠ [] then .Failed else .Passed

/-! ## STP mode and duplex comparison
(tests/layer2/test_layer2.py `STPValidation.verify_stp_mode`,
layer1_tests.py `LinkHealth.check_link_speed_duplex`) -/

/-- The fields `verify_stp_mode` reads from
`device.parse('show spanning-tree summary')`. -/
structure StpParsed where
  mode : Option (List Char)
  spanning_tree_mode : Option (List Char)
deriving DecidableEq

/-- `parsed.get('mode', parsed.get('spanning_tree_mode', '')).lower()`. -/
def stpModeOf (p : StpParsed) : List Char :=
  lowerStr (p.mode.getD (p.spanning_tree_mode.getD []))

/-- One entry of the `failed` list of `verify_stp_mode`. -/
inductive StpFinding where
  | parseFailed (device : List Char)
  | modeMismatch (device mode expected : List Char)
deriving DecidableEq

/-- A device as seen by `verify_stp_mode`: its `stp_mode` custom attribute
(`none` models an absent key, for which the source substitutes the default
`'rapid-pvst'`). -/
structure StpDevice where
  name : List Char
  stp_mode : Option (List Char)
deriving DecidableEq

/-- The entries `verify_stp_mode` appends for one device: a finding iff the
lowercased expected mode is not a substring (`not in`) of the lowercased
observed mode. -/
def stpDeviceFindings (parse : List Char → Except Unit StpParsed)
    (d : StpDevice) : List StpFinding :=
  let expected := d.stp_mode.getD (strOf "rapid-pvst")
  match parse d.name with
  | .error _ => [.parseFailed d.name]
  | .ok p =>
      let mode := stpModeOf p
      if ¬ containsSub (lowerStr expected) mode then
        [.modeMismatch d.name mode expected]
      else []

/-- The `verify_stp_mode` test method over the STP-enabled devices. -/
def verifyStpMode (parse : List Char → Except Unit StpParsed)
    (devs : List StpDevice) : List StpFinding × Verdict :=
  let findings := (devs.map (stpDeviceFindings parse)).flatten
  (findings, if findings ≠ [] then .Failed else .Passed)

/-- The duplex fields `check_link_speed_duplex` reads from the parsed
interface data. -/
structure DuplexParsed where
  duplex_mode : Option (List Char)
  duplex : Option (List Char)
deriving DecidableEq

/-- `intf_data.get('duplex_mode', intf_data.get('duplex', '')).lower()`. -/
def actualDuplexOf (p : DuplexParsed) : List Char :=
  lowerStr (p.duplex_mode.getD (p.duplex.getD []))

/-- The duplex test of `check_link_speed_duplex`:
`if expected_duplex and actual_duplex != expected_duplex.lower()`.  `none`
models a falsy (absent or empty) expectation. -/
def duplexMismatch (expectedDuplex : Option (List Char)) (p : DuplexParsed) : Bool :=
  match expectedDuplex with
  | none => false
  | some e => actualDuplexOf p ≠ lowerStr e

/-! ## LDP neighbor extraction (tests/layer3/test_mpls_core.py, `LdpNeighbors`)

`verify_ldp_neighbors` walks `output['vrf'][*]['peers']`, collects the peer
ids whose lowercased `state` is `'oper'`, and fails a device on
`set(expected) - set(operational)` being non-empty. -/

/-- One entry of a vrf's `peers` dict. -/
structure LdpPeer where
  state : Option (List Char)
deriving DecidableEq

/-- The `operational_neighbors` list of `verify_ldp_neighbors`, from the
`output['vrf']` mapping (`none` on a vrf models an absent `peers` key). -/
def ldpOperationalNeighbors
    (vrfs : List (List Char × Option (List (List Char × LdpPeer)))) : List (List Char) :=
  (vrfs.map (fun vp =>
    match vp.2 with
    | some peers =>
        peers.filterMap (fun p =>
          if lowerStr (p.2.state.getD []) = strOf "oper" then some p.1 else none)
    | none => [])).flatten

/-- `set(expected_neighbors) - set(operational_neighbors)` as a list; for a
duplicate-free expected list this has exactly the elements and
multiplicities of the Python set difference. -/
def ldpMissing (expected operational : List (List Char)) : List (List Char) :=
  expected.filter (fun e => decide (e ∉ operational))

/-! ## The two OSPF neighbor verifications
(tests/layer3/test_ospf_health.py `OspfNeighborHealth.verify_ospf_neighbors`
and tests/layer3/test_mpls_core.py `OspfNeighbors.verify_ospf_neighbors`)

Both parse `show ip ospf neighbor`.  The health suite walks a flat
`interfaces` mapping when present, else the nested `vrf` mapping, and counts
a neighbor as full when `state.upper().startswith('FULL')`.  The MPLS suite
walks only the `vrf` mapping and requires `state.upper() == 'FULL'`. -/

/-- One neighbor entry (`nbr_data`). -/
structure OspfNbr where
  state : Option (List Char)
deriving DecidableEq

/-- One interface entry; `none` models an absent `neighbors` key. -/
structure OspfNbrIntf where
  neighbors : Option (List (List Char × OspfNbr))
deriving DecidableEq

/-- One area entry; `none` models an absent `interfaces` key. -/
structure OspfArea where
  interfaces : Option (List (List Char × OspfNbrIntf))
deriving DecidableEq

/-- One instance entry; `none` models an absent `areas` key. -/
structure OspfInst where
  areas : Option (List (List Char × OspfArea))
deriving DecidableEq

/-- One address-family entry; `instances` models the `'instance'` key. -/
structure OspfAf where
  instances : Option (List (List Char × OspfInst))
deriving DecidableEq

/-- One vrf entry; `none` models an absent `address_family` key. -/
structure OspfVrfData where
  address_family : Option (List (List Char × OspfAf))
deriving DecidableEq

/-- A parsed `show ip ospf neighbor` payload: the optional top-level
`interfaces` and `vrf` keys. -/
structure OspfNbrOutput where
  interfaces : Option (List (List Char × OspfNbrIntf))
  vrf : Option (List (List Char × OspfVrfData))
deriving DecidableEq

/-- The health suite's FULL test: `state.upper().startswith('FULL')`
(`''` for an absent state). -/
def healthIsFull (state : Option (List Char)) : Bool :=
  (strOf "FULL").isPrefixOf (upperStr (state.getD []))

/-- The MPLS suite's FULL test: `state.upper() == 'FULL'`. -/
def mplsIsFull (state : Option (List Char)) : Bool :=
  upperStr (state.getD []) == strOf "FULL"

/-- Neighbors of an `interfaces` mapping whose state passes `isF`, in
encounter order (shared by both suites' traversals, which differ only in
the state test). -/
def neighborsFromIntfs (isF : Option (List Char) → Bool)
    (intfs : List (List Char × OspfNbrIntf)) : List (List Char) :=
  (intfs.map (fun ip =>
    match ip.2.neighbors with
    | some nbrs => nbrs.filterMap (fun np => if isF np.2.state then some np.1 else none)
    | none => [])).flatten

/-- Passing neighbors of one area. -/
def areaNeighbors (isF : Option (List Char) → Bool) (a : OspfArea) : List (List Char) :=
  match a.interfaces with
  | some intfs => neighborsFromIntfs isF intfs
  | none => []

/-- Passing neighbors of one instance. -/
def instNeighbors (isF : Option (List Char) → Bool) (i : OspfInst) : List (List Char) :=
  match i.areas with
  | some ars => (ars.map (fun p => areaNeighbors isF p.2)).flatten
  | none => []

/-- Passing neighbors of one address family. -/
def afNeighbors (isF : Option (List Char) → Bool) (a : OspfAf) : List (List Char) :=
  match a.instances with
  | some l => (l.map (fun p => instNeighbors isF p.2)).flatten
  | none => []

/-- Passing neighbors of one vrf. -/
def vrfDataNeighbors (isF : Option (List Char) → Bool) (v : OspfVrfData) : List (List Char) :=
  match v.address_family with
  | some l => (l.map (fun p => afNeighbors isF p.2)).flatten
  | none => []

/-- Passing neighbors of the whole `vrf` mapping. -/
def vrfNeighbors (isF : Option (List Char) → Bool)
    (vrfs : List (List Char × OspfVrfData)) : List (List Char) :=
  (vrfs.map (fun p => vrfDataNeighbors isF p.2)).flatten

/-- `full_neighbors` as computed by
`OspfNeighborHealth.verify_ospf_neighbors`: the flat `interfaces` shape when
present, elif the `vrf` shape, with the `startswith('FULL')` test. -/
def ospfHealthFullNeighbors (o : OspfNbrOutput) : List (List Char) :=
  match o.interfaces with
  | some intfs => neighborsFromIntfs healthIsFull intfs
  | none =>
      match o.vrf with
      | some vrfs => vrfNeighbors healthIsFull vrfs
      | none => []

/-- `full_neighbors` as computed by
`OspfNeighbors.verify_ospf_neighbors` in the MPLS suite: only the `vrf`
shape, with the `== 'FULL'` test. -/
def mplsFullNeighbors (o : OspfNbrOutput) : List (List Char) :=
  match o.vrf with
  | some vrfs => vrfNeighbors mplsIsFull vrfs
  | none => []

/-- `set(expected_neighbors) - set(full_neighbors)` as a list, as in
`ldpMissing`. -/
def ospfMissing (expected full : List (List Char)) : List (List Char) :=
  expected.filter (fun e => decide (e ∉ full))

/-- All neighbor states of an `interfaces` mapping (for stating when the two
FULL tests agree on a payload). -/
def statesFromIntfs (intfs : List (List Char × OspfNbrIntf)) : List (Option (List Char)) :=
  (intfs.map (fun ip =>
    match ip.2.neighbors with
    | some nbrs => nbrs.map (fun np => np.2.state)
    | none => [])).flatten

/-- All neighbor states of one area. -/
def areaStates (a : OspfArea) : List (Option (List Char)) :=
  match a.interfaces with
  | some intfs => statesFromIntfs intfs
  | none => []

/-- All neighbor states of one instance. -/
def instStates (i : OspfInst) : List (Option (List Char)) :=
  match i.areas with
  | some ars => (ars.map (fun p => areaStates p.2)).flatten
  | none => []

/-- All neighbor states of one address family. -/
def afStates (a : OspfAf) : List (Option (List Char)) :=
  match a.instances with
  | some l => (l.map (fun p => instStates p.2)).flatten
  | none => []

/-- All neighbor states of one vrf. -/
def vrfDataStates (v : OspfVrfData) : List (Option (List Char)) :=
  match v.address_family with
  | some l => (l.map (fun p => afStates p.2)).flatten
  | none => []

/-- All neighbor states of the whole `vrf` mapping. -/
def vrfStates (vrfs : List (List Char × OspfVrfData)) : List (Option (List Char)) :=
  (vrfs.map (fun p => vrfDataStates p.2)).flatten

/-! ## Concrete scenarios referenced by the claim theorems -/

/-- One link whose first endpoint sits on a device whose
`show interfaces` parse raises. -/
def c2Links : List TbLink :=
  [⟨strOf "L1", [⟨strOf "r1", strOf "Gi0/1"⟩, ⟨strOf "r2", strOf "Gi0/2"⟩]⟩]

/-- Parse environment for `c2Links`: `r1` raises, `r2` answers down/down. -/
def c2ParseEnv : List Char → List Char → Except Unit IntfParsed := fun dev _ =>
  if dev = strOf "r1" then .error ()
  else .ok ⟨some (strOf "down"), some (strOf "down")⟩

/-- A REP device expecting `Gi1/0/1` blocked. -/
def c3Device : RepDevice :=
  ⟨strOf "sw1", [strOf "Gi1/0/1"], strOf "primary-edge"⟩

/-- `show rep topology` text for `c3Device` in which no port is blocked. -/
def c3ExecEnv : List Char → Except Unit (List Char) := fun _ =>
  .ok (strOf "REP Segment 1\nGi1/0/1 OPEN")

/-- One link carrying an SFP-10G-SR interface. -/
def c4Links : List (List Char × List OpticIntf) :=
  [(strOf "L1", [⟨strOf "r1", strOf "Te1/1", some (strOf "SFP-10G-SR")⟩])]

/-- Optics environment whose rx value is the unparseable string `"N/A"`. -/
def c4NaEnv : List Char → List Char → Except Unit (Option PyVal) := fun _ _ =>
  .ok (some (.str (strOf "N/A")))

/-- Optics environment reporting a fixed rx value everywhere. -/
def c9OpticEnv (rx : PyVal) : List Char → List Char → Except Unit (Option PyVal) :=
  fun _ _ => .ok (some rx)

/-- Endpoint A of the CDP witness link. -/
def c6IntfA : LinkIntf := ⟨strOf "A", strOf "Gi0/1"⟩

/-- Endpoint B of the CDP witness link. -/
def c6IntfB : LinkIntf := ⟨strOf "B", strOf "Gi0/2"⟩

/-- A's CDP entry: right neighbor, wrong port. -/
def c6EntryA : CdpEntry :=
  ⟨strOf "Gi0/1", strOf "B.lab.local", strOf "Gi0/3"⟩

/-- B's CDP entry: right neighbor, wrong port. -/
def c6EntryB : CdpEntry :=
  ⟨strOf "Gi0/2", strOf "A", strOf "Gi0/9"⟩

/-- CDP parse environment for the witness link. -/
def c6ParseEnv : List Char → Except Unit (List CdpEntry) := fun dev =>
  if dev = strOf "A" then .ok [c6EntryA] else .ok [c6EntryB]

/-- A vrf-shaped `show ip ospf neighbor` payload with a single neighbor
`10.0.0.2` in state `FULL/DR`. -/
def c10Vrfs : List (List Char × OspfVrfData) :=
  [(strOf "default",
    ⟨some [(strOf "ipv4",
      ⟨some [(strOf "1",
        ⟨some [(strOf "0",
          ⟨some [(strOf "GigabitEthernet0/0",
            ⟨some [(strOf "10.0.0.2", ⟨some (strOf "FULL/DR")⟩)]⟩)]⟩)]⟩)]⟩)]⟩)]

/-- The payload `c10Vrfs` under the top-level `vrf` key. -/
def c10Output : OspfNbrOutput := ⟨none, some c10Vrfs⟩

/-- A vrf-shaped payload whose single neighbor state is exactly `FULL`. -/
def c10FullVrfs : List (List Char × OspfVrfData) :=
  [(strOf "default",
    ⟨some [(strOf "ipv4",
      ⟨some [(strOf "1",
        ⟨some [(strOf "0",
          ⟨some [(strOf "GigabitEthernet0/0",
            ⟨some [(strOf "10.0.0.2", ⟨some (strOf "FULL")⟩),
             (strOf "10.0.0.3", ⟨some (strOf "INIT")⟩)]⟩)]⟩)]⟩)]⟩)]⟩)]

/-! ## Claim theorems -/

/-- Claim C1: the spec asserts that the interface-name normalization maps every
long-form/short-form pair denoting the same interface to one canonical string,
each known long-form prefix being rewritten to its fixed short form.  The code
violates this: both normalization functions apply the `gigabitethernet → gi`
replacement before the `tengigabitethernet → te` one, so the long form
`TenGigabitEthernet1/0/1` normalizes to `tengi1/0/1` while its short form
`Te1/0/1` normalizes to `te1/0/1`, and the `tengigabitethernet` table entry can
never fire.  The table entry shows the claimed behavior is the code's own
intent, so this is a code bug. -/
theorem c1_normalize_tengig_eval :
    normalizeInterfaceName (strOf "TenGigabitEthernet1/0/1") = strOf "tengi1/0/1" ∧
    normalizeInterfaceName (strOf "Te1/0/1") = strOf "te1/0/1" ∧
    normalizeInterfaceName (strOf "TenGigabitEthernet1/0/1") ≠
      normalizeInterfaceName (strOf "Te1/0/1") ∧
    repNormalizeInterface (strOf "TenGigabitEthernet1/0/1") = strOf "tengi1/0/1" ∧
    repNormalizeInterface (strOf "TenGigabitEthernet1/0/1") ≠
      repNormalizeInterface (strOf "Te1/0/1") := by
  decide

/-- Claim C2, counterexample: the claim says every checker converts a
device-scoped query/parse error into a Finding for that device and continues,
naming the layer-1 link-status check in particular.  But `check_link_status`
calls `device.parse` with no exception handling: when the parse for `r1` (the
first endpoint of the only link) raises, the whole checker aborts with the
exception instead of producing any verdict or Finding. -/
theorem c2_claim_counterexample :
    c2ParseEnv (strOf "r1") (strOf "Gi0/1") = .error () ∧
    checkLinkStatusVerdict c2ParseEnv c2Links = .error () :=
  ⟨rfl, rfl⟩

/-- Claim C2, amended: checkers that wrap the per-device query in
try/except — here the VLAN existence check — convert a device-scoped query
error into exactly one Finding for that device and continue with the remaining
devices unchanged; the layer-1 link-status check instead lets the exception
abort the checker. -/
theorem c2_amended_queryerror_finding
    (parse : List Char → Except Unit (List (List Char)))
    (d : VlanDevice) (rest : List VlanDevice)
    (h : parse d.name = .error ()) :
    verifyVlanExistence parse (d :: rest) =
      VlanFinding.parseError d.name :: verifyVlanExistence parse rest := by
  simp [verifyVlanExistence, vlanDeviceFindings, h]

/-- Witness for `c2_amended_queryerror_finding` at a concrete device and
failing environment. -/
theorem c2_amended_witness :
    (fun _ : List Char => (Except.error () : Except Unit (List (List Char))))
        (strOf "sw1") = .error () ∧
    verifyVlanExistence (fun _ => .error ()) [⟨strOf "sw1", [10]⟩] =
      VlanFinding.parseError (strOf "sw1") ::
        verifyVlanExistence (fun _ => .error ()) [] :=
  ⟨rfl, c2_amended_queryerror_finding (fun _ => .error ()) ⟨strOf "sw1", [10]⟩ [] rfl⟩

/-- Claim C3: the spec asserts that a non-empty Finding set always yields a
Failed verdict, in particular for an expected REP blocked port not observed
blocked.  The code violates this: `verify_blocked_ports` collects the issue
for the unblocked expected port `Gi1/0/1` but ends with only a warning log and
never calls `self.failed`, so the testcase completes in the passed state with
a non-empty issue list.  Every sibling `verify_*` method of the suite fails on
its non-empty issue list, so this is a code bug. -/
theorem c3_blocked_ports_pass_despite_issue :
    (verifyBlockedPorts c3ExecEnv [c3Device]).1 =
      [RepIssue.notBlocked (strOf "sw1") (strOf "Gi1/0/1")] ∧
    (verifyBlockedPorts c3ExecEnv [c3Device]).2 = Verdict.Passed := by
  decide

/-- Claim C4, counterexample: the claim says a non-numeric rx value such as
`"N/A"` yields a Failed verdict with a distinct "value unparseable" Finding
and never escapes as an uncaught exception.  But in
`check_link_optical_levels` only `device.parse` is inside try/except; the
`float(rx_power)` coercion is unprotected, so an rx value of `"N/A"` aborts
the whole checker with the exception — no Finding, no verdict. -/
theorem c4_claim_counterexample :
    parseFloatChars (strOf "N/A") = none ∧
    checkLinkOpticalVerdict c4NaEnv c4Links = .error () :=
  ⟨rfl, rfl⟩

/-- Claim C4, amended: a non-numeric rx value on an interface with a known
SFP type never counts as a pass, but it is not converted into a Finding
either — the unprotected `float()` call raises and the uncaught exception
aborts the checker. -/
theorem c4_amended_unparseable_aborts
    (parseOptics : List Char → List Char → Except Unit (Option PyVal))
    (lname dev intf t s : List Char) (mn mx : Rat)
    (h1 : sfpLookup t = some (mn, mx))
    (h2 : parseOptics dev intf = .ok (some (.str s)))
    (h3 : parseFloatChars s = none) :
    checkLinkOpticalVerdict parseOptics [(lname, [⟨dev, intf, some t⟩])] =
      .error () := by
  simp [checkLinkOpticalVerdict, checkLinkOpticalLevels, opticIntfDetails,
    h1, h2, pyFloat, h3, Bind.bind, Except.bind]

/-- Witness for `c4_amended_unparseable_aborts` at a concrete link whose rx
value is the string `"n/a"`. -/
theorem c4_amended_witness :
    sfpLookup (strOf "SFP-1G-SX") = some (-17, 0) ∧
    parseFloatChars (strOf "n/a") = none ∧
    checkLinkOpticalVerdict (fun _ _ => .ok (some (.str (strOf "n/a"))))
      [(strOf "L2", [⟨strOf "r9", strOf "Gi0/3", some (strOf "SFP-1G-SX")⟩])] =
      .error () :=
  ⟨by decide, rfl,
    c4_amended_unparseable_aborts (fun _ _ => .ok (some (.str (strOf "n/a"))))
      (strOf "L2") (strOf "r9") (strOf "Gi0/3") (strOf "SFP-1G-SX") (strOf "n/a")
      (-17) 0 (by decide) rfl rfl⟩

/-- Claim C9: the optical-power comparison uses inclusive bounds.  For any
rx reading on an SFP-10G-SR interface the checker fails exactly when the
reading is strictly below `-9.5` (that is, `-19/2`) or strictly above `2.0`;
in particular `-10.0` dBm fails while exactly `-9.5` dBm passes. -/
theorem c9_inclusive_bounds :
    sfpLookup (strOf "SFP-10G-SR") = some (mkRat (-19) 2, 2) ∧
    (∀ rx : Rat,
      checkLinkOpticalVerdict (c9OpticEnv (.num rx)) c4Links =
        .ok (if rx < mkRat (-19) 2 ∨ 2 < rx then .Failed else .Passed)) ∧
    checkLinkOpticalVerdict (c9OpticEnv (.num (-10))) c4Links = .ok .Failed ∧
    checkLinkOpticalVerdict (c9OpticEnv (.num (mkRat (-19) 2))) c4Links =
      .ok .Passed := by
  have hl : sfpLookup (strOf "SFP-10G-SR") = some (mkRat (-19) 2, 2) := by decide
  refine ⟨hl, ?_, rfl, rfl⟩
  intro rx
  by_cases h : mkRat (-19) 2 ≤ rx ∧ rx ≤ 2
  · have h3 : ¬ (2 < rx) := not_lt.mpr h.2
    have h4 : ¬ (rx < mkRat (-19) 2) := not_lt.mpr h.1
    simp [checkLinkOpticalVerdict, checkLinkOpticalLevels, opticIntfDetails,
      c9OpticEnv, c4Links, pyFloat, hl, Bind.bind, Except.bind,
      Pure.pure, Except.pure, h.1, h3, h4]
  · have h2 : rx < mkRat (-19) 2 ∨ 2 < rx := by
      rcases not_and_or.mp h with h' | h'
      · exact Or.inl (lt_of_not_le h')
      · exact Or.inr (lt_of_not_le h')
    rcases h2 with h' | h'
    · simp [checkLinkOpticalVerdict, checkLinkOpticalLevels, opticIntfDetails,
        c9OpticEnv, c4Links, pyFloat, hl, Bind.bind, Except.bind,
        Pure.pure, Except.pure, not_le.mpr h', h']
    · simp [checkLinkOpticalVerdict, checkLinkOpticalLevels, opticIntfDetails,
        c9OpticEnv, c4Links, pyFloat, hl, Bind.bind, Except.bind,
        Pure.pure, Except.pure, h']

/-- Membership in one device's missing-VLAN entries: exactly the expected ids
whose string form is not among the observed keys. -/
theorem mem_filterMap_vlanMissTest (device : List Char) (keys : List (List Char))
    (E : List Nat) (v : Nat) :
    VlanFinding.missingVlan device v ∈ E.filterMap (vlanMissTest device keys) ↔
      v ∈ E ∧ natChars v ∉ keys := by
  rw [List.mem_filterMap]
  constructor
  · rintro ⟨a, haE, hfa⟩
    unfold vlanMissTest at hfa
    by_cases hk : natChars a ∈ keys
    · simp [hk] at hfa
    · simp only [hk, if_neg, ite_false] at hfa
      injection hfa with h
      injection h with h1 h2
      subst h2
      exact ⟨haE, hk⟩
  · rintro ⟨hvE, hk⟩
    exact ⟨v, hvE, by simp [vlanMissTest, hk]⟩

/-- `vlanMissTest` yields a given entry for at most one expected id. -/
theorem vlanMissTest_inj (device : List Char) (keys : List (List Char)) :
    ∀ (a a' : Nat), ∀ b ∈ vlanMissTest device keys a,
      b ∈ vlanMissTest device keys a' → a = a' := by
  intro a a' b hb hb'
  unfold vlanMissTest at hb hb'
  split at hb
  · simp at hb
  · split at hb'
    · simp at hb'
    · simp only [Option.mem_def, Option.some.injEq] at hb hb'
      simpa using hb.trans hb'.symm

/-- Count of one device's missing-VLAN entry for a duplicate-free expected
list. -/
theorem count_vlanMissTest (device : List Char) (keys : List (List Char))
    (E : List Nat) (v : Nat) (hE : E.Nodup) (hv : v ∈ E) :
    (E.filterMap (vlanMissTest device keys)).count (.missingVlan device v) =
      if natChars v ∈ keys then 0 else 1 := by
  have hnd : (E.filterMap (vlanMissTest device keys)).Nodup :=
    List.Nodup.filterMap (vlanMissTest_inj device keys) hE
  by_cases hk : natChars v ∈ keys
  · rw [if_pos hk]
    refine List.count_eq_zero_of_not_mem ?_
    rw [mem_filterMap_vlanMissTest]
    rintro ⟨_, hkk⟩
    exact hkk hk
  · rw [if_neg hk]
    exact List.count_eq_one_of_mem hnd
      ((mem_filterMap_vlanMissTest device keys E v).mpr ⟨hv, hk⟩)

/-- A duplicate-free list counts each of its members once (stated for an
arbitrary lawful `BEq`). -/
theorem count_eq_one_nodup {α : Type} [BEq α] [LawfulBEq α] {a : α} :
    ∀ {l : List α}, l.Nodup → a ∈ l → l.count a = 1 := by
  intro l
  induction l with
  | nil => intro _ h; cases h
  | cons b l ih =>
    intro hnd hm
    have hb : b ∉ l := (List.nodup_cons.mp hnd).1
    have hl : l.Nodup := (List.nodup_cons.mp hnd).2
    rw [List.count_cons]
    rcases List.mem_cons.mp hm with rfl | hm'
    · rw [List.count_eq_zero_of_not_mem hb]
      simp
    · have hne : (b == a) = false := by
        refine beq_eq_false_iff_ne.mpr ?_
        intro h
        exact hb (h ▸ hm')
      rw [ih hl hm', hne]
      simp

/-- Membership in the LDP missing list. -/
theorem mem_ldpMissing (E operational : List (List Char)) (e : List Char) :
    e ∈ ldpMissing E operational ↔ e ∈ E ∧ e ∉ operational := by
  simp [ldpMissing, List.mem_filter]

/-- Count of an expected element in the LDP missing list for a
duplicate-free expected list. -/
theorem count_ldpMissing (E operational : List (List Char)) (e : List Char)
    (hE : E.Nodup) (he : e ∈ E) :
    (ldpMissing E operational).count e = if e ∈ operational then 0 else 1 := by
  have hnd : (ldpMissing E operational).Nodup := hE.filter _
  by_cases ho : e ∈ operational
  · rw [if_pos ho]
    refine List.count_eq_zero_of_not_mem ?_
    rw [mem_ldpMissing]
    rintro ⟨_, hno⟩
    exact hno ho
  · rw [if_neg ho]
    exact count_eq_one_nodup hnd ((mem_ldpMissing E operational e).mpr ⟨he, ho⟩)

/-- Claim C5: both set-membership checks are "required subset" checks.  For
the VLAN existence check on a device with a duplicate-free expected list,
each expected VLAN missing from the observed keys yields exactly one Finding
naming it, ids outside the expected list never yield a Finding, and the
Finding list is empty iff every expected id is observed; the LDP neighbor
check behaves identically on its expected/operational lists. -/
theorem c5_set_membership
    (parse : List Char → Except Unit (List (List Char)))
    (name : List Char) (E : List Nat) (keys : List (List Char))
    (ldpExpected operational : List (List Char))
    (hE : E.Nodup) (hL : ldpExpected.Nodup)
    (hp : parse name = .ok keys) :
    (∀ v ∈ E, (verifyVlanExistence parse [⟨name, E⟩]).count (.missingVlan name v) =
        if natChars v ∈ keys then 0 else 1) ∧
    (∀ v : Nat, v ∉ E →
        VlanFinding.missingVlan name v ∉ verifyVlanExistence parse [⟨name, E⟩]) ∧
    (verifyVlanExistence parse [⟨name, E⟩] = [] ↔ ∀ v ∈ E, natChars v ∈ keys) ∧
    (∀ e ∈ ldpExpected, (ldpMissing ldpExpected operational).count e =
        if e ∈ operational then 0 else 1) ∧
    (∀ e : List Char, e ∉ ldpExpected → e ∉ ldpMissing ldpExpected operational) ∧
    (ldpMissing ldpExpected operational = [] ↔ ∀ e ∈ ldpExpected, e ∈ operational) := by
  have hF : verifyVlanExistence parse [⟨name, E⟩] =
      E.filterMap (vlanMissTest name keys) := by
    simp [verifyVlanExistence, vlanDeviceFindings, hp]
  refine ⟨?_, ?_, ?_, ?_, ?_, ?_⟩
  · intro v hv
    rw [hF]
    exact count_vlanMissTest name keys E v hE hv
  · intro v hv
    rw [hF, mem_filterMap_vlanMissTest]
    rintro ⟨hvE, _⟩
    exact hv hvE
  · rw [hF, List.filterMap_eq_nil_iff]
    constructor
    · intro h v hv
      have := h v hv
      unfold vlanMissTest at this
      by_cases hk : natChars v ∈ keys
      · exact hk
      · simp [hk] at this
    · intro h v hv
      simp [vlanMissTest, h v hv]
  · intro e he
    exact count_ldpMissing ldpExpected operational e hL he
  · intro e he
    rw [mem_ldpMissing]
    rintro ⟨heE, _⟩
    exact he heE
  · rw [ldpMissing, List.filter_eq_nil_iff]
    constructor
    · intro h e he
      have := h e he
      simp at this
      exact this
    · intro h e he
      simp [h e he]

/-- Witness for `c5_set_membership`: observed VLANs `{10, 20}` against
expected `[10, 30]`, and the spec's own LDP example, observed
`{10.0.0.1, 10.0.0.2}` against expected `[10.0.0.1, 10.0.0.3]`. -/
theorem c5_set_membership_witness :
    ([10, 30] : List Nat).Nodup ∧
    ([strOf "10.0.0.1", strOf "10.0.0.3"]).Nodup ∧
    ((∀ v ∈ ([10, 30] : List Nat),
      (verifyVlanExistence (fun _ => .ok [strOf "10", strOf "20"])
          [⟨strOf "sw1", [10, 30]⟩]).count (.missingVlan (strOf "sw1") v) =
        if natChars v ∈ [strOf "10", strOf "20"] then 0 else 1) ∧
    (∀ v : Nat, v ∉ ([10, 30] : List Nat) →
        VlanFinding.missingVlan (strOf "sw1") v ∉
          verifyVlanExistence (fun _ => .ok [strOf "10", strOf "20"])
            [⟨strOf "sw1", [10, 30]⟩]) ∧
    (verifyVlanExistence (fun _ => .ok [strOf "10", strOf "20"])
        [⟨strOf "sw1", [10, 30]⟩] = [] ↔
      ∀ v ∈ ([10, 30] : List Nat), natChars v ∈ [strOf "10", strOf "20"]) ∧
    (∀ e ∈ [strOf "10.0.0.1", strOf "10.0.0.3"],
      (ldpMissing [strOf "10.0.0.1", strOf "10.0.0.3"]
          [strOf "10.0.0.1", strOf "10.0.0.2"]).count e =
        if e ∈ [strOf "10.0.0.1", strOf "10.0.0.2"] then 0 else 1) ∧
    (∀ e : List Char, e ∉ [strOf "10.0.0.1", strOf "10.0.0.3"] →
        e ∉ ldpMissing [strOf "10.0.0.1", strOf "10.0.0.3"]
          [strOf "10.0.0.1", strOf "10.0.0.2"]) ∧
    (ldpMissing [strOf "10.0.0.1", strOf "10.0.0.3"]
        [strOf "10.0.0.1", strOf "10.0.0.2"] = [] ↔
      ∀ e ∈ [strOf "10.0.0.1", strOf "10.0.0.3"],
        e ∈ [strOf "10.0.0.1", strOf "10.0.0.2"])) :=
  ⟨by decide, by decide,
    c5_set_membership (fun _ => .ok [strOf "10", strOf "20"]) (strOf "sw1")
      [10, 30] [strOf "10", strOf "20"]
      [strOf "10.0.0.1", strOf "10.0.0.3"] [strOf "10.0.0.1", strOf "10.0.0.2"]
      (by decide) (by decide) rfl⟩

/-- Claim C6: the CDP check evaluates both directions of a two-endpoint link
even when the first direction already mismatches.  With each endpoint's CDP
entry matching the local interface and the expected neighbor name but not the
expected port, the link fails with exactly two findings, the first for the
A-side view and the second for the B-side view — one per direction, not one
merged finding. -/
theorem c6_both_directions (parseCdp : List Char → Except Unit (List CdpEntry))
    (lname : List Char) (a b : LinkIntf) (ea eb : CdpEntry)
    (hpa : parseCdp a.device = .ok [ea]) (hpb : parseCdp b.device = .ok [eb])
    (h1 : containsSub (lowerStr a.name) (lowerStr ea.local_interface) = true)
    (h2 : containsSub (lowerStr b.device) (lowerStr (stripDomain ea.device_id)) = true)
    (h3 : containsSub (lowerStr b.name) (lowerStr ea.port_id) = false)
    (h4 : containsSub (lowerStr b.name) (lowerStr eb.local_interface) = true)
    (h5 : containsSub (lowerStr a.device) (lowerStr (stripDomain eb.device_id)) = true)
    (h6 : containsSub (lowerStr a.name) (lowerStr eb.port_id) = false) :
    checkLinkCdp parseCdp [⟨lname, [a, b]⟩] =
      [(lname, [CdpDetail.portMismatch a.device a.name ea.port_id b.name,
                CdpDetail.portMismatch b.device b.name eb.port_id a.name])] ∧
    checkLinkCdpVerdict parseCdp [⟨lname, [a, b]⟩] = .Failed := by
  have hdir1 : cdpDirectionFindings parseCdp a b =
      [CdpDetail.portMismatch a.device a.name ea.port_id b.name] := by
    simp [cdpDirectionFindings, hpa, cdpEntryFindings, h1, h2, h3]
  have hdir2 : cdpDirectionFindings parseCdp b a =
      [CdpDetail.portMismatch b.device b.name eb.port_id a.name] := by
    simp [cdpDirectionFindings, hpb, cdpEntryFindings, h4, h5, h6]
  have hlk : checkLinkCdp parseCdp [⟨lname, [a, b]⟩] =
      [(lname, [CdpDetail.portMismatch a.device a.name ea.port_id b.name,
                CdpDetail.portMismatch b.device b.name eb.port_id a.name])] := by
    simp [checkLinkCdp, hdir1, hdir2]
  exact ⟨hlk, by simp [checkLinkCdpVerdict, hlk]⟩

/-- Witness for `c6_both_directions`: link `A:Gi0/1 — B:Gi0/2` where A's CDP
entry reports port `Gi0/3` and B's reports port `Gi0/9`. -/
theorem c6_both_directions_witness :
    c6ParseEnv (strOf "A") = .ok [c6EntryA] ∧
    c6ParseEnv (strOf "B") = .ok [c6EntryB] ∧
    checkLinkCdp c6ParseEnv [⟨strOf "LK", [c6IntfA, c6IntfB]⟩] =
      [(strOf "LK",
        [CdpDetail.portMismatch (strOf "A") (strOf "Gi0/1") (strOf "Gi0/3") (strOf "Gi0/2"),
         CdpDetail.portMismatch (strOf "B") (strOf "Gi0/2") (strOf "Gi0/9") (strOf "Gi0/1")])] ∧
    checkLinkCdpVerdict c6ParseEnv [⟨strOf "LK", [c6IntfA, c6IntfB]⟩] = .Failed :=
  ⟨rfl, rfl,
    c6_both_directions c6ParseEnv (strOf "LK") c6IntfA c6IntfB c6EntryA c6EntryB
      rfl rfl (by decide) (by decide) (by decide) (by decide) (by decide) (by decide)⟩

/-- Every finding of the VLAN existence check reports on one of the devices
it evaluated. -/
theorem vlanFindingDevice_mem (parse : List Char → Except Unit (List (List Char))) :
    ∀ (devs : List VlanDevice), ∀ f ∈ verifyVlanExistence parse devs,
      vlanFindingDevice f ∈ devs.map VlanDevice.name := by
  intro devs
  induction devs with
  | nil =>
    intro f hf
    simp [verifyVlanExistence] at hf
  | cons d rest ih =>
    intro f hf
    simp only [verifyVlanExistence, List.map_cons, List.flatten_cons,
      List.mem_append] at hf
    rcases hf with hf | hf
    · have hd : vlanFindingDevice f = d.name := by
        unfold vlanDeviceFindings at hf
        split at hf
        · simp at hf
          subst hf
          rfl
        · rw [List.mem_filterMap] at hf
          obtain ⟨v, _, hv⟩ := hf
          unfold vlanMissTest at hv
          split at hv
          · cases hv
          · injection hv with h
            subst h
            rfl
      rw [List.map_cons, hd]
      exact List.mem_cons_self d.name _
    · have := ih f (by simpa [verifyVlanExistence] using hf)
      rw [List.map_cons]
      exact List.mem_cons_of_mem _ this

/-- Claim C7: a device declaring no VLAN expectation is excluded from the
checker's evaluated-device set and no finding can report on a device outside
that set; and when no device declares an expectation, the checker verdict is
Skipped, never Failed. -/
theorem c7_skip_propagation (parse : List Char → Except Unit (List (List Char)))
    (l2 : List VlanDevice) (d : VlanDevice)
    (_hd : d ∈ l2) (hde : d.expected_vlans = []) :
    d ∉ vlanDevicesOf l2 ∧
    (∀ f ∈ verifyVlanExistence parse (vlanDevicesOf l2),
        vlanFindingDevice f ∈ (vlanDevicesOf l2).map VlanDevice.name) ∧
    ((∀ d' ∈ l2, d'.expected_vlans = []) →
        vlanExistenceVerdict parse l2 = .Skipped ∧
        vlanExistenceVerdict parse l2 ≠ .Failed) := by
  refine ⟨?_, vlanFindingDevice_mem parse (vlanDevicesOf l2), ?_⟩
  · rw [vlanDevicesOf, List.mem_filter]
    rintro ⟨_, hcond⟩
    simp [hde] at hcond
  · intro hall
    have hempty : vlanDevicesOf l2 = [] := by
      rw [vlanDevicesOf, List.filter_eq_nil_iff]
      intro d' hd'
      simp [hall d' hd']
    constructor
    · simp [vlanExistenceVerdict, hempty]
    · simp [vlanExistenceVerdict, hempty]

/-- Witness for `c7_skip_propagation`: two devices, neither declaring
expected VLANs. -/
theorem c7_skip_propagation_witness :
    (⟨strOf "sw1", []⟩ : VlanDevice) ∈
      ([⟨strOf "sw1", []⟩, ⟨strOf "sw2", []⟩] : List VlanDevice) ∧
    (VlanDevice.mk (strOf "sw1") []).expected_vlans = [] ∧
    ((⟨strOf "sw1", []⟩ : VlanDevice) ∉
        vlanDevicesOf [⟨strOf "sw1", []⟩, ⟨strOf "sw2", []⟩] ∧
    (∀ f ∈ verifyVlanExistence (fun _ => .error ())
        (vlanDevicesOf [⟨strOf "sw1", []⟩, ⟨strOf "sw2", []⟩]),
      vlanFindingDevice f ∈
        (vlanDevicesOf [⟨strOf "sw1", []⟩, ⟨strOf "sw2", []⟩]).map VlanDevice.name) ∧
    ((∀ d' ∈ ([⟨strOf "sw1", []⟩, ⟨strOf "sw2", []⟩] : List VlanDevice),
        d'.expected_vlans = []) →
      vlanExistenceVerdict (fun _ => .error ())
          [⟨strOf "sw1", []⟩, ⟨strOf "sw2", []⟩] = .Skipped ∧
      vlanExistenceVerdict (fun _ => .error ())
          [⟨strOf "sw1", []⟩, ⟨strOf "sw2", []⟩] ≠ .Failed)) :=
  ⟨by decide, rfl,
    c7_skip_propagation (fun _ => .error ())
      [⟨strOf "sw1", []⟩, ⟨strOf "sw2", []⟩] ⟨strOf "sw1", []⟩
      (by decide) rfl⟩

/-- Claim C8, counterexample: the claim says the STP-mode comparison is
case-insensitive string equality, so an observed mode that merely contains
the expected mode as a proper substring would be a mismatch.  But
`verify_stp_mode` tests `expected_mode.lower() not in mode`: with the
observed mode `rapid-pvst-plus` and the expected mode `rapid-pvst` the
lowercased strings differ, yet the check produces no finding and passes. -/
theorem c8_claim_counterexample :
    lowerStr (strOf "rapid-pvst-plus") ≠ lowerStr (strOf "rapid-pvst") ∧
    (verifyStpMode (fun _ => .ok ⟨some (strOf "rapid-pvst-plus"), none⟩)
        [⟨strOf "sw1", some (strOf "rapid-pvst")⟩]).1 = [] ∧
    (verifyStpMode (fun _ => .ok ⟨some (strOf "rapid-pvst-plus"), none⟩)
        [⟨strOf "sw1", some (strOf "rapid-pvst")⟩]).2 = .Passed := by
  decide

/-- Claim C8, amended: the duplex comparison is case-insensitive string
equality, but the STP-mode comparison is substring containment — a finding
is produced iff the lowercased expected mode is not a substring of the
lowercased observed mode, so an observed mode properly containing the
expected one is accepted. -/
theorem c8_amended_substring_semantics (name expected : List Char)
    (p : StpParsed) (dp : DuplexParsed) (e : List Char) :
    (stpDeviceFindings (fun _ => .ok p) ⟨name, some expected⟩ = [] ↔
        containsSub (lowerStr expected) (stpModeOf p) = true) ∧
    (stpDeviceFindings (fun _ => .ok p) ⟨name, some expected⟩ =
        [.modeMismatch name (stpModeOf p) expected] ↔
        containsSub (lowerStr expected) (stpModeOf p) = false) ∧
    ((verifyStpMode (fun _ => .ok p) [⟨name, some expected⟩]).2 = .Failed ↔
        containsSub (lowerStr expected) (stpModeOf p) = false) ∧
    (duplexMismatch (some e) dp = true ↔ actualDuplexOf dp ≠ lowerStr e) := by
  cases hc : containsSub (lowerStr expected) (stpModeOf p) <;>
    simp [stpDeviceFindings, verifyStpMode, duplexMismatch, hc]

/-- Claim C10, counterexample: the claim says the two OSPF-neighbor
verifications classify the same states as FULL, naming `FULL/DR` as an
example.  On a vrf-shaped payload whose only neighbor `10.0.0.2` reports
state `FULL/DR`, the OSPF health suite (prefix test) counts it full and finds
nothing missing, while the MPLS suite (equality test) counts nothing full and
reports the neighbor missing — opposite outcomes. -/
theorem c10_claim_counterexample :
    ospfHealthFullNeighbors c10Output = [strOf "10.0.0.2"] ∧
    mplsFullNeighbors c10Output = [] ∧
    ospfMissing [strOf "10.0.0.2"] (ospfHealthFullNeighbors c10Output) = [] ∧
    ospfMissing [strOf "10.0.0.2"] (mplsFullNeighbors c10Output) =
      [strOf "10.0.0.2"] := by
  decide

/-- Pointwise-agreeing state tests extract the same neighbors from an
`interfaces` mapping. -/
theorem neighborsFromIntfs_congr (f g : Option (List Char) → Bool)
    (intfs : List (List Char × OspfNbrIntf))
    (h : ∀ s ∈ statesFromIntfs intfs, f s = g s) :
    neighborsFromIntfs f intfs = neighborsFromIntfs g intfs := by
  induction intfs with
  | nil => rfl
  | cons ip rest ih =>
    simp only [neighborsFromIntfs, List.map_cons, List.flatten_cons]
    simp only [statesFromIntfs, List.map_cons, List.flatten_cons,
      List.mem_append] at h
    congr 1
    · cases hm : ip.2.neighbors with
      | none => rfl
      | some nbrs =>
        refine List.filterMap_congr ?_
        intro np hnp
        have hst : f np.2.state = g np.2.state := by
          refine h np.2.state (Or.inl ?_)
          rw [hm]
          exact List.mem_map_of_mem _ hnp
        rw [hst]
    · refine ih ?_
      intro s hs
      exact h s (Or.inr hs)

/-- Pointwise-agreeing state tests extract the same neighbors from an area. -/
theorem areaNeighbors_congr (f g : Option (List Char) → Bool) (a : OspfArea)
    (h : ∀ s ∈ areaStates a, f s = g s) :
    areaNeighbors f a = areaNeighbors g a := by
  cases a with
  | mk oi =>
    cases oi with
    | none => rfl
    | some intfs =>
      exact neighborsFromIntfs_congr f g intfs (by simpa [areaStates] using h)

/-- Pointwise-agreeing state tests extract the same neighbors from an
instance. -/
theorem instNeighbors_congr (f g : Option (List Char) → Bool) (i : OspfInst)
    (h : ∀ s ∈ instStates i, f s = g s) :
    instNeighbors f i = instNeighbors g i := by
  cases i with
  | mk oi =>
    cases oi with
    | none => rfl
    | some ars =>
      simp only [instNeighbors]
      congr 1
      refine List.map_congr_left ?_
      intro p hp
      refine areaNeighbors_congr f g p.2 ?_
      intro s hs
      refine h s ?_
      simp only [instStates]
      exact List.mem_flatten.mpr ⟨areaStates p.2, List.mem_map_of_mem _ hp, hs⟩

/-- Pointwise-agreeing state tests extract the same neighbors from an
address family. -/
theorem afNeighbors_congr (f g : Option (List Char) → Bool) (a : OspfAf)
    (h : ∀ s ∈ afStates a, f s = g s) :
    afNeighbors f a = afNeighbors g a := by
  cases a with
  | mk oi =>
    cases oi with
    | none => rfl
    | some insts =>
      simp only [afNeighbors]
      congr 1
      refine List.map_congr_left ?_
      intro p hp
      refine instNeighbors_congr f g p.2 ?_
      intro s hs
      refine h s ?_
      simp only [afStates]
      exact List.mem_flatten.mpr ⟨instStates p.2, List.mem_map_of_mem _ hp, hs⟩

/-- Pointwise-agreeing state tests extract the same neighbors from a vrf. -/
theorem vrfDataNeighbors_congr (f g : Option (List Char) → Bool) (v : OspfVrfData)
    (h : ∀ s ∈ vrfDataStates v, f s = g s) :
    vrfDataNeighbors f v = vrfDataNeighbors g v := by
  cases v with
  | mk oi =>
    cases oi with
    | none => rfl
    | some afs =>
      simp only [vrfDataNeighbors]
      congr 1
      refine List.map_congr_left ?_
      intro p hp
      refine afNeighbors_congr f g p.2 ?_
      intro s hs
      refine h s ?_
      simp only [vrfDataStates]
      exact List.mem_flatten.mpr ⟨afStates p.2, List.mem_map_of_mem _ hp, hs⟩

/-- Pointwise-agreeing state tests extract the same neighbors from a whole
`vrf` mapping. -/
theorem vrfNeighbors_congr (f g : Option (List Char) → Bool)
    (vrfs : List (List Char × OspfVrfData))
    (h : ∀ s ∈ vrfStates vrfs, f s = g s) :
    vrfNeighbors f vrfs = vrfNeighbors g vrfs := by
  simp only [vrfNeighbors]
  congr 1
  refine List.map_congr_left ?_
  intro p hp
  refine vrfDataNeighbors_congr f g p.2 ?_
  intro s hs
  refine h s ?_
  simp only [vrfStates]
  exact List.mem_flatten.mpr ⟨vrfDataStates p.2, List.mem_map_of_mem _ hp, hs⟩

/-- Claim C10, amended: the two OSPF-neighbor verifications agree on a
vrf-shaped payload precisely under the restriction that every neighbor state
in it is (after uppercasing) either exactly `FULL` or not `FULL`-prefixed;
under that condition they compute the same full-neighbor set, the same
missing set for every expected list, and the same pass/fail outcome.  (They
additionally differ on `interfaces`-shaped payloads, which only the health
suite reads.) -/
theorem c10_amended_full_agreement (vrfs : List (List Char × OspfVrfData))
    (expected : List (List Char))
    (hs : ∀ s ∈ vrfStates vrfs,
      upperStr (s.getD []) = strOf "FULL" ∨
      (strOf "FULL").isPrefixOf (upperStr (s.getD [])) = false) :
    ospfHealthFullNeighbors ⟨none, some vrfs⟩ = mplsFullNeighbors ⟨none, some vrfs⟩ ∧
    ospfMissing expected (ospfHealthFullNeighbors ⟨none, some vrfs⟩) =
      ospfMissing expected (mplsFullNeighbors ⟨none, some vrfs⟩) ∧
    (ospfMissing expected (ospfHealthFullNeighbors ⟨none, some vrfs⟩) = [] ↔
      ospfMissing expected (mplsFullNeighbors ⟨none, some vrfs⟩) = []) := by
  have hpt : ∀ s ∈ vrfStates vrfs, healthIsFull s = mplsIsFull s := by
    intro s hsm
    rcases hs s hsm with h | h
    · simp [healthIsFull, mplsIsFull, h]
    · have hne : upperStr (s.getD []) ≠ strOf "FULL" := by
        intro hh
        rw [hh] at h
        exact absurd h (by decide)
      simp [healthIsFull, mplsIsFull, h, beq_eq_false_iff_ne.mpr hne]
  have hmain : ospfHealthFullNeighbors ⟨none, some vrfs⟩ =
      mplsFullNeighbors ⟨none, some vrfs⟩ := by
    simp only [ospfHealthFullNeighbors, mplsFullNeighbors]
    exact vrfNeighbors_congr healthIsFull mplsIsFull vrfs hpt
  exact ⟨hmain, by rw [hmain], by rw [hmain]⟩

/-- Witness for `c10_amended_full_agreement`: a payload with one `FULL` and
one `INIT` neighbor, against the expected list `[10.0.0.2]`. -/
theorem c10_amended_witness :
    (∀ s ∈ vrfStates c10FullVrfs,
      upperStr (s.getD []) = strOf "FULL" ∨
      (strOf "FULL").isPrefixOf (upperStr (s.getD [])) = false) ∧
    (ospfHealthFullNeighbors ⟨none, some c10FullVrfs⟩ =
        mplsFullNeighbors ⟨none, some c10FullVrfs⟩ ∧
    ospfMissing [strOf "10.0.0.2"] (ospfHealthFullNeighbors ⟨none, some c10FullVrfs⟩) =
      ospfMissing [strOf "10.0.0.2"] (mplsFullNeighbors ⟨none, some c10FullVrfs⟩) ∧
    (ospfMissing [strOf "10.0.0.2"]
        (ospfHealthFullNeighbors ⟨none, some c10FullVrfs⟩) = [] ↔
      ospfMissing [strOf "10.0.0.2"]
        (mplsFullNeighbors ⟨none, some c10FullVrfs⟩) = [])) :=
  ⟨by decide,
    c10_amended_full_agreement c10FullVrfs [strOf "10.0.0.2"] (by decide)⟩

end Pyats

